import Mathlib

/-!
# Observability dashboard — verification of the span-to-event core

A shallow embedding of the agentic-layer observability dashboard
(span preprocessor, event factories, filter predicate, filter registry,
connection manager), translated from the Python sources:

* `src/backend/src/span_preprocessor.py` — attribute codec, span classifier,
  timestamp conversion, per-span processing;
* `src/app/utils/factories.py` — event factories and the agent-tool heuristic;
* `src/backend/src/agent_monitor/utils/extractors.py` — content extractors;
* `src/app/models/events.py`, `src/app/models/content.py` — data model;
* `src/app/models/filters.py` — filter predicate;
* `src/app/core/filter_registry.py` — TTL registry;
* `src/app/core/connection_manager.py` — subscriber fabric.

Python dictionaries are modelled as association lists with Python's
`d[k] = v` semantics (`pyset`: update in place if the key exists, append
otherwise), which preserves insertion order and keeps keys unique by
construction.  Machine integers are modelled as `Int`/`Nat`; protobuf
doubles are carried as `Rat` (no arithmetic is ever performed on them in
the modelled code, only truthiness tests and equality).
-/

namespace ObsDash

/-- An OTLP `AnyValue`: the tagged union carried by span and resource
attributes (`common_pb2.AnyValue`).  The `array`, `kvlist` and `bytes`
tags are never decoded by the dashboard, so they carry no payload here;
`unset` models a message whose `WhichOneof("value")` is `None`. -/
inductive AnyValue where
  | str (s : String)
  | int (n : Int)
  | double (q : Rat)
  | bool (b : Bool)
  | arr
  | kvlist
  | bytes
  | unset
deriving Repr, DecidableEq

/-- A decoded primitive attribute value, as produced by
`_extract_attribute_value` (string / int / double / bool). -/
inductive AttrValue where
  | vStr (s : String)
  | vInt (n : Int)
  | vDouble (q : Rat)
  | vBool (b : Bool)
deriving Repr, DecidableEq

/-- `_extract_attribute_value(attr_value)`: decode an `AnyValue` to a
primitive, or `none` for unset / unrecognized tags (which the code logs
at debug level and drops). -/
def extractAttributeValue : AnyValue → Option AttrValue
  | .str s => some (.vStr s)
  | .int n => some (.vInt n)
  | .double q => some (.vDouble q)
  | .bool b => some (.vBool b)
  | .arr => none
  | .kvlist => none
  | .bytes => none
  | .unset => none

/-- Python truthiness of a decoded primitive (`bool(value)`): empty
string, zero int, zero float and `False` are falsy. -/
def AttrValue.truthy : AttrValue → Bool
  | .vStr s => !(s = "")
  | .vInt n => !(n = 0)
  | .vDouble q => !(q = 0)
  | .vBool b => b

/-- Python truthiness of `dict.get(...)` results: `None` is falsy. -/
def optTruthy : Option AttrValue → Bool
  | some v => v.truthy
  | none => false

/-- `str(value)` on a decoded primitive, as applied by
`_process_single_span` to `agent_name` / `conversation_id`.  (For the
`float` case Python's `repr` formatting is abstracted by the decimal
rendering of the carried rational; no verified claim depends on it.) -/
def AttrValue.pyStr : AttrValue → String
  | .vStr s => s
  | .vInt n => toString n
  | .vDouble q => toString q
  | .vBool b => if b then "True" else "False"

/-- Python dict assignment `d[k] = v` on an association list: replace
the value in place if the key is present, append otherwise. -/
def pyset {V : Type} : List (String × V) → String → V → List (String × V)
  | [], k, v => [(k, v)]
  | (k', v') :: rest, k, v =>
      if k' = k then (k, v) :: rest else (k', v') :: pyset rest k v

/-- Python `d.get(k)` on an association list: the first binding of `k`,
if any. -/
def dget {V : Type} : List (String × V) → String → Option V
  | [], _ => none
  | (k', v') :: rest, k => if k' = k then some v' else dget rest k

/-- Python `str.startswith(p)`, modelled as character-list prefixing. -/
def pyStartsWith (s p : String) : Bool :=
  p.data.isPrefixOf s.data

/-- Python `str.endswith(p)`, modelled as character-list suffixing. -/
def pyEndsWith (s p : String) : Bool :=
  p.data.isSuffixOf s.data

/-- Python `str.lower()` (the dashboard only ever lowers ASCII span
names; Unicode-specific case folding is out of scope). -/
def pyLower (s : String) : String :=
  ⟨s.data.map Char.toLower⟩

/-- A span as consumed by the preprocessor: its name, raw OTLP
attribute list, and `start_time_unix_nano` (an int64; modelled as
`Int`, overflow being impossible for values a protobuf can carry and
irrelevant to the modelled checks). -/
structure Span where
  name : String
  attributes : List (String × AnyValue)
  start_time_unix_nano : Int
deriving Repr, DecidableEq

/-- Flatten an OTLP attribute list into a primitive-valued mapping:
decode every attribute and keep the decodable ones, duplicate keys
resolved last-write-wins. -/
def flattenAttrList (attrs : List (String × AnyValue)) : List (String × AttrValue) :=
  attrs.foldl
    (fun acc kv =>
      match extractAttributeValue kv.2 with
      | some v => pyset acc kv.1 v
      | none => acc)
    []

/-- `_extract_span_attributes(span)`. -/
def extractSpanAttributes (span : Span) : List (String × AttrValue) :=
  flattenAttrList span.attributes

/-- `_determine_event_type(span_name)`: classify the lower-cased span
name by prefix, in the source's cascade order. -/
def determineEventType (span_name : String) : Option String :=
  let l := pyLower span_name
  if pyStartsWith l "before_agent" then some "agent_start"
  else if pyStartsWith l "before_model" || pyStartsWith l "before_llm" then some "llm_call_start"
  else if pyStartsWith l "after_model" || pyStartsWith l "after_llm" then some "llm_call_end"
  else if pyStartsWith l "on_model_error" then some "llm_call_error"
  else if pyStartsWith l "before_tool" then some "tool_call_start"
  else if pyStartsWith l "after_tool" then some "tool_call_end"
  else if pyStartsWith l "on_tool_error" then some "tool_call_error"
  else if pyStartsWith l "after_agent" then some "agent_end"
  else none

/-- The specification's prefix table (§4.4), read top to bottom with the
first matching prefix winning; applied to an already lower-cased name.
This definition follows the spec's wording, to be compared with the
source-derived `determineEventType`. -/
def specPrefixTable (lowered : String) : Option String :=
  if pyStartsWith lowered "before_agent" then some "agent_start"
  else if pyStartsWith lowered "after_agent" then some "agent_end"
  else if pyStartsWith lowered "before_model" || pyStartsWith lowered "before_llm" then some "llm_call_start"
  else if pyStartsWith lowered "after_model" || pyStartsWith lowered "after_llm" then some "llm_call_end"
  else if pyStartsWith lowered "on_model_error" then some "llm_call_error"
  else if pyStartsWith lowered "before_tool" then some "tool_call_start"
  else if pyStartsWith lowered "after_tool" then some "tool_call_end"
  else if pyStartsWith lowered "on_tool_error" then some "tool_call_error"
  else none

/-- A JSON value, the codomain of `json.loads` and the value type of
tool-response mappings after the JSON unwrap in
`create_tool_call_end_event`.  Decoded span attributes embed into it
via `attrToJ`. -/
inductive JVal where
  | jStr (s : String)
  | jInt (n : Int)
  | jRat (q : Rat)
  | jBool (b : Bool)
  | jNull
  | jArr (xs : List JVal)
  | jObj (fields : List (String × JVal))
deriving Repr

/-- Embed a decoded primitive attribute value into `JVal`. -/
def attrToJ : AttrValue → JVal
  | .vStr s => .jStr s
  | .vInt n => .jInt n
  | .vDouble q => .jRat q
  | .vBool b => .jBool b

/-- `TextContent` (`src/app/models/content.py`).  Fields hold whatever
attribute value the extractor stored (Python is dynamically typed, so
`text` need not actually be a string). -/
structure TextContent where
  text : AttrValue := .vStr ""
  thought : AttrValue := .vBool false
deriving Repr, DecidableEq

/-- `ToolCall` (`src/app/models/content.py`). -/
structure ToolCall where
  tool_name : AttrValue := .vStr ""
  arguments : List (String × AttrValue) := []
deriving Repr, DecidableEq

/-- `ToolResponse` (`src/app/models/content.py`). -/
structure ToolResponse where
  tool_name : AttrValue := .vStr ""
  response : List (String × AttrValue) := []
deriving Repr, DecidableEq

/-- One element of `LlmRequestContent.content`
(`TextContent | ToolResponse`). -/
inductive RequestPart where
  | text (t : TextContent)
  | toolResp (r : ToolResponse)
deriving Repr, DecidableEq

/-- One element of `LlmResponseContent.parts` (`TextContent | ToolCall`). -/
inductive ResponsePart where
  | text (t : TextContent)
  | toolCall (c : ToolCall)
deriving Repr, DecidableEq

/-- `LlmRequestContent` (`src/app/models/content.py`). -/
structure LlmRequestContent where
  role : AttrValue := .vStr "user"
  content : List RequestPart := []
deriving Repr, DecidableEq

/-- `LlmResponseContent` (`src/app/models/content.py`). -/
structure LlmResponseContent where
  role : AttrValue := .vStr "model"
  parts : List ResponsePart := []
deriving Repr, DecidableEq

/-- `UsageMetadata` (`src/app/models/content.py`).  The extractor copies
attribute values verbatim, so the fields carry `AttrValue`. -/
structure UsageMetadata where
  total_tokens : AttrValue := .vInt 0
  prompt_tokens : AttrValue := .vInt 0
  candidate_tokens : AttrValue := .vInt 0
  thoughts_tokens : AttrValue := .vInt 0
  tool_use_prompt_tokens : AttrValue := .vInt 0
  cached_content_tokens : AttrValue := .vInt 0
deriving Repr, DecidableEq

/-- `extract_invoked_agent(attributes)`.

Modelled from the spec: the module it lives in for the canonical
pipeline, `src/app/utils/extractors.py`, is absent from `src/` (only
its unit tests in `src/test/test_factories.py` and its caller
`src/app/utils/factories.py` are present).  Spec §4.5: for
`tool_name == "transfer_to_agent"` the invoked agent is
`attribute("args.agent_name", "")`; for the single-argument AgentTool
pattern the invoked agent *is* the `tool_name`.  The unit tests pin the
same behaviour, including the empty-string defaults. -/
def extractInvokedAgent (attributes : List (String × AttrValue)) : AttrValue :=
  if dget attributes "tool_name" = some (.vStr "transfer_to_agent") then
    (dget attributes "args.agent_name").getD (.vStr "")
  else
    (dget attributes "tool_name").getD (.vStr "")

/-- Split a character list at `'.'` (every separator occurrence opens a
new chunk, so leading/trailing dots give empty chunks, as Python's
`str.split(".")` does). -/
def splitDotChars : List Char → List (List Char)
  | [] => [[]]
  | c :: rest =>
      let r := splitDotChars rest
      if c = '.' then [] :: r
      else
        match r with
        | [] => [[c]]
        | h :: t => (c :: h) :: t

/-- Python `key.split(".")`. -/
def pySplitDot (s : String) : List String :=
  (splitDotChars s.data).map (fun l => ⟨l⟩)

/-- `extract_tool_response(attributes)`
(`src/backend/src/agent_monitor/utils/extractors.py`): for every key
with prefix `tool_response.`, keep only the last dotted segment as the
output key (last-write-wins on collisions). -/
def extractToolResponse (attributes : List (String × AttrValue)) : List (String × AttrValue) :=
  attributes.foldl
    (fun response kv =>
      if pyStartsWith kv.1 "tool_response." then
        let key_parts := pySplitDot kv.1
        if key_parts.length > 1 then
          let new_key := key_parts.getLastD ""
          if new_key ≠ "" then pyset response new_key kv.2 else response
        else response
      else response)
    []

/-- `extract_tool_call(attributes)`
(`src/backend/src/agent_monitor/utils/extractors.py`): `tool_name`
attribute plus every `args.`-prefixed key with the prefix stripped. -/
def extractToolCall (attributes : List (String × AttrValue)) : ToolCall :=
  { tool_name := (dget attributes "tool_name").getD (.vStr "")
    arguments :=
      attributes.foldl
        (fun arguments kv =>
          if pyStartsWith kv.1 "args." then
            let new_key := kv.1.drop 5
            if new_key ≠ "" then pyset arguments new_key kv.2 else arguments
          else arguments)
        [] }

/-- `extract_usage_metadata(attributes)`
(`src/backend/src/agent_monitor/utils/extractors.py`): six named
counters, each defaulting to 0. -/
def extractUsageMetadata (attributes : List (String × AttrValue)) : UsageMetadata :=
  { total_tokens := (dget attributes "llm_response.usage_metadata.total_token_count").getD (.vInt 0)
    prompt_tokens := (dget attributes "llm_response.usage_metadata.prompt_token_count").getD (.vInt 0)
    candidate_tokens := (dget attributes "llm_response.usage_metadata.candidates_token_count").getD (.vInt 0)
    thoughts_tokens := (dget attributes "llm_response.usage_metadata.thoughts_token_count").getD (.vInt 0)
    tool_use_prompt_tokens := (dget attributes "llm_response.usage_metadata.tool_use_prompt_token_count").getD (.vInt 0)
    cached_content_tokens := (dget attributes "llm_response.usage_metadata.cached_content_token_count").getD (.vInt 0) }

/-- True iff every character of `l` is an ASCII digit. -/
def allDigits (l : List Char) : Bool :=
  l.all Char.isDigit

/-- Matcher for the compiled pattern
`llm_request.content.parts.\d+.text` (`fullmatch`): checks the literal
head, one-or-more digits, and the literal tail. -/
def matchPartsKey (head : String) (tail : String) (key : String) : Bool :=
  pyStartsWith key head &&
    (let mid := (key.drop head.length).data
     let digits := mid.takeWhile Char.isDigit
     digits ≠ [] && (mid.drop digits.length) = tail.data)

/-- The digit group captured by `matchPartsKey` (the part index, as the
matched string). -/
def partsKeyNumber (head : String) (key : String) : String :=
  ⟨(key.drop head.length).data.takeWhile Char.isDigit⟩

/-- `extract_llm_request_content(attributes)`
(`src/backend/src/agent_monitor/utils/extractors.py`): first pass
collects text parts, allocates tool-response slots by part index and
picks up `.role` keys; second pass fills each tool-response mapping
from the keys under its `function_response.response.` prefix. -/
def extractLlmRequestContent (attributes : List (String × AttrValue)) : LlmRequestContent :=
  let first :=
    attributes.foldl
      (fun (st : LlmRequestContent × List (String × ToolResponse)) kv =>
        let (content, tool_responses) := st
        if !pyStartsWith kv.1 "llm_request.content." then st
        else if matchPartsKey "llm_request.content.parts." ".text" kv.1 then
          ({ content with content := content.content ++ [.text { text := kv.2, thought := .vBool false }] },
           tool_responses)
        else if matchPartsKey "llm_request.content.parts." ".function_response.name" kv.1 then
          let number := partsKeyNumber "llm_request.content.parts." kv.1
          (content, pyset tool_responses number { tool_name := kv.2, response := [] })
        else if pyEndsWith kv.1 ".role" then
          ({ content with role := kv.2 }, tool_responses)
        else st)
      ({}, [])
  let (content, tool_responses) := first
  tool_responses.foldl
    (fun content numbered =>
      let pre := "llm_request.content.parts." ++ numbered.1 ++ ".function_response.response."
      let tr :=
        attributes.foldl
          (fun (tr : ToolResponse) kv =>
            if pyStartsWith kv.1 pre then
              let new_key := kv.1.drop pre.length
              if new_key ≠ "" then { tr with response := pyset tr.response new_key kv.2 } else tr
            else tr)
          numbered.2
      { content with content := content.content ++ [.toolResp tr] })
    content

/-- `extract_llm_response_content(attributes)`
(`src/backend/src/agent_monitor/utils/extractors.py`): symmetric to the
request side, with text parts picking up their sibling `.thought`
attribute and tool-call slots filled from `function_call.args.` keys. -/
def extractLlmResponseContent (attributes : List (String × AttrValue)) : LlmResponseContent :=
  let first :=
    attributes.foldl
      (fun (st : Option LlmResponseContent × List (String × ToolCall)) kv =>
        let (content?, tool_calls) := st
        if !pyStartsWith kv.1 "llm_response.content." then st
        else
          let content := content?.getD {}
          if matchPartsKey "llm_response.content.parts." ".text" kv.1 then
            let thought := (dget attributes (String.replace kv.1 "text" "thought")).getD (.vBool false)
            (some { content with parts := content.parts ++ [.text { text := kv.2, thought := thought }] },
             tool_calls)
          else if matchPartsKey "llm_response.content.parts." ".function_call.name" kv.1 then
            let number := partsKeyNumber "llm_response.content.parts." kv.1
            (some content, pyset tool_calls number { tool_name := kv.2, arguments := [] })
          else if pyEndsWith kv.1 ".role" then
            (some { content with role := kv.2 }, tool_calls)
          else (some content, tool_calls))
      (none, [])
  let (content?, tool_calls) := first
  let filled :=
    tool_calls.foldl
      (fun (content? : Option LlmResponseContent) numbered =>
        let pre := "llm_response.content.parts." ++ numbered.1 ++ ".function_call.args."
        let tc :=
          attributes.foldl
            (fun (tc : ToolCall) kv =>
              if pyStartsWith kv.1 pre then
                let new_key := kv.1.drop pre.length
                if new_key ≠ "" then { tc with arguments := pyset tc.arguments new_key kv.2 } else tc
              else tc)
            numbered.2
        match content? with
        | some content => some { content with parts := content.parts ++ [.toolCall tc] }
        | none => none)
      content?
  filled.getD {}

/-- The kind-specific payload of an event (`src/app/models/events.py`):
the nine dataclasses of the `CommunicationEvent` union, distinguished
here by constructor instead of Python subclassing. -/
inductive Payload where
  | agentP
  | llmStartP (model : AttrValue) (content : LlmRequestContent)
  | llmEndP (content : LlmResponseContent) (usage_metadata : UsageMetadata)
  | llmErrorP (model : AttrValue) (content : LlmRequestContent) (error : AttrValue)
  | toolStartP (tool_call : ToolCall)
  | toolEndP (tool_call : ToolCall) (response : List (String × JVal))
  | toolErrorP (tool_call : ToolCall) (error : AttrValue)
  | invokeStartP (tool_call : ToolCall) (invoked_agent : AttrValue)
  | invokeEndP (tool_call : ToolCall) (response : List (String × JVal)) (invoked_agent : AttrValue)
deriving Repr

/-- A communication event: the shared `BaseEvent` header
(`src/app/models/events.py`) plus the kind-specific payload. -/
structure Event where
  acting_agent : String
  conversation_id : String
  timestamp : String
  event_type : String
  invocation_id : AttrValue
  workforce_name : Option String
  payload : Payload
deriving Repr

/-- The `invoked_agent` field of an event, when its payload is one of
the two invoke-agent variants. -/
def Event.invokedAgent? (e : Event) : Option AttrValue :=
  match e.payload with
  | .invokeStartP _ a => some a
  | .invokeEndP _ _ a => some a
  | _ => none

/-- The `response` mapping of an event, when its payload is a
`tool_call_end` / `invoke_agent_end` variant. -/
def Event.response? (e : Event) : Option (List (String × JVal)) :=
  match e.payload with
  | .toolEndP _ r => some r
  | .invokeEndP _ r _ => some r
  | _ => none

/-- `_is_agent_tool_call(attributes)` (`src/app/utils/factories.py`):
legacy `transfer_to_agent`, or the single-argument AgentTool pattern
(the `args.`-prefixed keys are exactly `["args.request"]`). -/
def isAgentToolCall (attributes : List (String × AttrValue)) : Bool :=
  if dget attributes "tool_name" = some (.vStr "transfer_to_agent") then true
  else if (attributes.map Prod.fst).filter (fun k => pyStartsWith k "args.") = ["args.request"] then true
  else false

/-- `create_agent_start_event` (`src/app/utils/factories.py`). -/
def createAgentStartEvent (acting_agent conversation_id timestamp : String)
    (attributes : List (String × AttrValue)) : Event :=
  { acting_agent, conversation_id, timestamp
    event_type := "agent_start"
    invocation_id := (dget attributes "invocation_id").getD (.vStr "")
    workforce_name := none
    payload := .agentP }

/-- `create_agent_end_event` (`src/app/utils/factories.py`). -/
def createAgentEndEvent (acting_agent conversation_id timestamp : String)
    (attributes : List (String × AttrValue)) : Event :=
  { acting_agent, conversation_id, timestamp
    event_type := "agent_end"
    invocation_id := (dget attributes "invocation_id").getD (.vStr "")
    workforce_name := none
    payload := .agentP }

/-- `create_llm_call_start_event` (`src/app/utils/factories.py`). -/
def createLlmCallStartEvent (acting_agent conversation_id timestamp : String)
    (attributes : List (String × AttrValue)) : Event :=
  { acting_agent, conversation_id, timestamp
    event_type := "llm_call_start"
    invocation_id := (dget attributes "invocation_id").getD (.vStr "")
    workforce_name := none
    payload := .llmStartP ((dget attributes "model").getD (.vStr ""))
      (extractLlmRequestContent attributes) }

/-- `create_llm_call_end_event` (`src/app/utils/factories.py`). -/
def createLlmCallEndEvent (acting_agent conversation_id timestamp : String)
    (attributes : List (String × AttrValue)) : Event :=
  { acting_agent, conversation_id, timestamp
    event_type := "llm_call_end"
    invocation_id := (dget attributes "invocation_id").getD (.vStr "")
    workforce_name := none
    payload := .llmEndP (extractLlmResponseContent attributes) (extractUsageMetadata attributes) }

/-- `create_llm_call_error_event` (`src/app/utils/factories.py`). -/
def createLlmCallErrorEvent (acting_agent conversation_id timestamp : String)
    (attributes : List (String × AttrValue)) : Event :=
  { acting_agent, conversation_id, timestamp
    event_type := "llm_call_error"
    invocation_id := (dget attributes "invocation_id").getD (.vStr "")
    workforce_name := none
    payload := .llmErrorP ((dget attributes "model").getD (.vStr ""))
      (extractLlmRequestContent attributes) ((dget attributes "error").getD (.vStr "")) }

/-- `create_tool_call_start_event` (`src/app/utils/factories.py`):
upgraded to `invoke_agent_start` when the agent-tool heuristic fires. -/
def createToolCallStartEvent (acting_agent conversation_id timestamp : String)
    (attributes : List (String × AttrValue)) : Event :=
  let invocation_id := (dget attributes "invocation_id").getD (.vStr "")
  let tool_call := extractToolCall attributes
  if isAgentToolCall attributes then
    { acting_agent, conversation_id, timestamp
      event_type := "invoke_agent_start"
      invocation_id
      workforce_name := none
      payload := .invokeStartP tool_call (extractInvokedAgent attributes) }
  else
    { acting_agent, conversation_id, timestamp
      event_type := "tool_call_start"
      invocation_id
      workforce_name := none
      payload := .toolStartP tool_call }

/-- `create_tool_call_error_event` (`src/app/utils/factories.py`). -/
def createToolCallErrorEvent (acting_agent conversation_id timestamp : String)
    (attributes : List (String × AttrValue)) : Event :=
  { acting_agent, conversation_id, timestamp
    event_type := "tool_call_error"
    invocation_id := (dget attributes "invocation_id").getD (.vStr "")
    workforce_name := none
    payload := .toolErrorP (extractToolCall attributes) ((dget attributes "error").getD (.vStr "")) }

/-- The JSON unwrap inside `create_tool_call_end_event`
(`src/app/utils/factories.py`): if the extracted response binds `text`
to a string that `json.loads` accepts, replace it in place with the
parsed value; on parse failure keep the string.  `parse` stands for
`json.loads` (a standard-library function, outside the repository), so
the unwrap is stated for an arbitrary parser. -/
def unwrapResponseText (parse : String → Option JVal)
    (response : List (String × AttrValue)) : List (String × JVal) :=
  let embedded := response.map (fun kv => (kv.1, attrToJ kv.2))
  match dget response "text" with
  | some (.vStr s) =>
      match parse s with
      | some j => pyset embedded "text" j
      | none => embedded
  | _ => embedded

/-- `create_tool_call_end_event` (`src/app/utils/factories.py`):
extract the tool call and response, apply the JSON unwrap to
`response["text"]`, and upgrade to `invoke_agent_end` when the
agent-tool heuristic fires. -/
def createToolCallEndEvent (parse : String → Option JVal)
    (acting_agent conversation_id timestamp : String)
    (attributes : List (String × AttrValue)) : Event :=
  let invocation_id := (dget attributes "invocation_id").getD (.vStr "")
  let tool_call := extractToolCall attributes
  let response := unwrapResponseText parse (extractToolResponse attributes)
  if isAgentToolCall attributes then
    { acting_agent, conversation_id, timestamp
      event_type := "invoke_agent_end"
      invocation_id
      workforce_name := none
      payload := .invokeEndP tool_call response (extractInvokedAgent attributes) }
  else
    { acting_agent, conversation_id, timestamp
      event_type := "tool_call_end"
      invocation_id
      workforce_name := none
      payload := .toolEndP tool_call response }

/-- `EVENT_FACTORY_MAP` dispatch in `_create_communication_event`
(`src/backend/src/span_preprocessor.py`): an unknown event type raises
`ValueError` there, modelled as `none` (unreachable from
`_process_single_span`). -/
def createCommunicationEvent (parse : String → Option JVal) (event_type : String)
    (agent_name conversation_id : String) (attributes : List (String × AttrValue))
    (start_time : String) : Option Event :=
  if event_type = "agent_start" then
    some (createAgentStartEvent agent_name conversation_id start_time attributes)
  else if event_type = "agent_end" then
    some (createAgentEndEvent agent_name conversation_id start_time attributes)
  else if event_type = "llm_call_start" then
    some (createLlmCallStartEvent agent_name conversation_id start_time attributes)
  else if event_type = "llm_call_end" then
    some (createLlmCallEndEvent agent_name conversation_id start_time attributes)
  else if event_type = "llm_call_error" then
    some (createLlmCallErrorEvent agent_name conversation_id start_time attributes)
  else if event_type = "tool_call_start" then
    some (createToolCallStartEvent agent_name conversation_id start_time attributes)
  else if event_type = "tool_call_end" then
    some (createToolCallEndEvent parse agent_name conversation_id start_time attributes)
  else if event_type = "tool_call_error" then
    some (createToolCallErrorEvent agent_name conversation_id start_time attributes)
  else none

/-- One decimal digit character: `'0' + (k % 10)`. -/
def digitCh (k : Nat) : Char :=
  Char.ofNat (48 + k % 10)

/-- A two-digit zero-padded decimal rendering (as characters). -/
def pad2 (n : Nat) : List Char :=
  [digitCh (n / 10), digitCh n]

/-- A four-digit zero-padded decimal rendering (as characters). -/
def pad4 (n : Nat) : List Char :=
  [digitCh (n / 1000), digitCh (n / 100), digitCh (n / 10), digitCh n]

/-- A six-digit zero-padded decimal rendering (as characters), the
`%06d` microsecond field of `datetime.isoformat`. -/
def pad6 (n : Nat) : List Char :=
  [digitCh (n / 100000), digitCh (n / 10000), digitCh (n / 1000),
   digitCh (n / 100), digitCh (n / 10), digitCh n]

/-- Proleptic-Gregorian date for a count of days since 1970-01-01
(Howard Hinnant's `civil_from_days`, the arithmetic CPython's
`datetime` performs for an aware `fromtimestamp`). -/
def civilFromDays (days : Int) : Int × Int × Int :=
  let z := days + 719468
  let era := z.fdiv 146097
  let doe := z - era * 146097
  let yoe := (doe - doe.fdiv 1460 + doe.fdiv 36524 - doe.fdiv 146096).fdiv 365
  let y := yoe + era * 400
  let doy := doe - (365 * yoe + yoe.fdiv 4 - yoe.fdiv 100)
  let mp := (5 * doy + 2).fdiv 153
  let d := doy - (153 * mp + 2).fdiv 5 + 1
  let m := mp + (if mp < 10 then 3 else -9)
  (y + (if m ≤ 2 then 1 else 0), m, d)

/-- Seconds of the minimum aware timestamp `datetime.fromtimestamp`
accepts with `tz=timezone.utc` (0001-01-01T00:00:00Z). -/
def minTimestampSec : Int := -62135596800

/-- Seconds of the maximum aware timestamp `datetime.fromtimestamp`
accepts with `tz=timezone.utc` (9999-12-31T23:59:59Z; larger values
raise and are caught). -/
def maxTimestampSec : Int := 253402300799

/-- `datetime.isoformat().replace("+00:00", "Z")` for the instant
`secs` seconds + `us` microseconds after the epoch:
`YYYY-MM-DDTHH:MM:SS`, a 6-digit fractional field only when `us ≠ 0`,
and the trailing `Z`. -/
def formatIsoZ (secs : Int) (us : Nat) : String :=
  let days := secs.fdiv 86400
  let sod := (secs - days * 86400).toNat
  let ymd := civilFromDays days
  ⟨pad4 ymd.1.toNat ++ '-' :: pad2 ymd.2.1.toNat ++ '-' :: pad2 ymd.2.2.toNat ++
    'T' :: pad2 (sod / 3600) ++ ':' :: pad2 (sod / 60 % 60) ++ ':' :: pad2 (sod % 60) ++
    (if us = 0 then ['Z'] else '.' :: pad6 us ++ ['Z'])⟩

/-- `_convert_timestamp_to_iso(timestamp_nano, span_name)`
(`src/backend/src/span_preprocessor.py`): convert the nanosecond
timestamp to an ISO-8601 UTC string with a trailing `Z`, or `none`
when `datetime.fromtimestamp` raises (instants outside years 1–9999).
CPython goes through float seconds (`timestamp_nano / 1_000_000_000`);
the conversion is modelled with exact integer arithmetic, microseconds
truncated from the nanosecond remainder.  The float path of the source
only blurs low-order digits and the acceptance of values within a few
ulps of the extreme year-1/year-9999 boundaries; no verified claim
depends on those, and every concrete input used below is exactly
representable as a double. -/
def convertTimestampToIso (timestamp_nano : Int) : Option String :=
  let secs := timestamp_nano.fdiv 1000000000
  if secs < minTimestampSec ∨ maxTimestampSec < secs then none
  else some (formatIsoZ secs ((timestamp_nano - secs * 1000000000).toNat / 1000))

/-- Tail of the timestamp-shape checker: zero or more digits then a
final `'Z'` (the fractional digits after the first one). -/
def isoFracTail : List Char → Bool
  | ['Z'] => true
  | c :: rest => c.isDigit && isoFracTail rest
  | [] => false

/-- After the seconds field: either `"Z"`, or `'.'`, at least one
digit, then `'Z'` — the `(\.\d+)?Z$` part of spec property P5. -/
def isoTail : List Char → Bool
  | ['Z'] => true
  | '.' :: c :: rest => c.isDigit && isoFracTail rest
  | _ => false

/-- Checker for the spec's timestamp shape (property P5):
`^\d\x7b4\x7d-\d\x7b2\x7d-\d\x7b2\x7dT\d\x7b2\x7d:\d\x7b2\x7d:\d\x7b2\x7d(\.\d+)?Z$`. -/
def isoShape (s : String) : Bool :=
  match s.data with
  | y1 :: y2 :: y3 :: y4 :: '-' :: m1 :: m2 :: '-' :: d1 :: d2 ::
      'T' :: h1 :: h2 :: ':' :: n1 :: n2 :: ':' :: s1 :: s2 :: rest =>
      y1.isDigit && y2.isDigit && y3.isDigit && y4.isDigit &&
      m1.isDigit && m2.isDigit && d1.isDigit && d2.isDigit &&
      h1.isDigit && h2.isDigit && n1.isDigit && n2.isDigit &&
      s1.isDigit && s2.isDigit && isoTail rest
  | _ => false

/-- `_process_single_span(span)` (`src/backend/src/span_preprocessor.py`):
flatten the attributes; drop the span unless the
`agent_communication_dashboard` flag is truthy and both
`conversation_id` and `agent_name` are truthy; classify by name;
convert the timestamp; dispatch to the factory.  `parse` stands for
`json.loads` inside the tool-call-end factory. -/
def processSingleSpan (parse : String → Option JVal) (span : Span) : Option Event :=
  let attributes := extractSpanAttributes span
  if !optTruthy ((dget attributes "agent_communication_dashboard").orElse (fun _ => some (.vBool false))) then
    none
  else
    let conversation_id := dget attributes "conversation_id"
    let agent_name := dget attributes "agent_name"
    if !optTruthy conversation_id || !optTruthy agent_name then none
    else
      match determineEventType span.name with
      | none => none
      | some event_type =>
          match convertTimestampToIso span.start_time_unix_nano with
          | none => none
          | some iso_timestamp =>
              createCommunicationEvent parse event_type
                ((agent_name.getD (.vStr "")).pyStr)
                ((conversation_id.getD (.vStr "")).pyStr)
                attributes iso_timestamp

/-- OTLP `ScopeSpans`: the spans of one instrumentation scope. -/
structure ScopeSpans where
  spans : List Span
deriving Repr

/-- OTLP `ResourceSpans`: the resource's attribute list and the scope
groups beneath it. -/
structure ResourceSpans where
  resource_attributes : List (String × AnyValue)
  scope_spans : List ScopeSpans
deriving Repr

/-- OTLP `ExportTraceServiceRequest`: the ingress batch. -/
structure ExportTraceServiceRequest where
  resource_spans : List ResourceSpans
deriving Repr

/-- The workforce name of a `ResourceSpans` entry: the decoded value of
the resource attribute `agentic_layer.workforce` when it is a string,
`none` otherwise (`BaseEvent.workforce_name` is `str | None`). -/
def workforceOf (rs : ResourceSpans) : Option String :=
  match dget (flattenAttrList rs.resource_attributes) "agentic_layer.workforce" with
  | some (.vStr s) => some s
  | _ => none

/-- The events produced under one `ResourceSpans` entry: every span of
every scope, processed by `_process_single_span`, with the resource's
workforce name threaded into each produced event. -/
def eventsUnderResource (parse : String → Option JVal) (rs : ResourceSpans) : List Event :=
  let wf := workforceOf rs
  rs.scope_spans.flatMap (fun scope =>
    scope.spans.filterMap (fun span =>
      (processSingleSpan parse span).map (fun e => { e with workforce_name := wf })))

/-- `preprocess_spans(export_request)`.

Modelled from the spec: the canonical driver
`src/app/core/span_preprocessor.py` is absent from `src/` (only its
caller `src/app/api/routes/traces.py`, the event model carrying
`workforce_name`, and tests exercising the resource attribute are
present; the sibling `src/backend/src/span_preprocessor.py` predates
the workforce field).  Spec §4.4/§4.6: walk
`resource_spans[*].scope_spans[*].spans[*]` in order, apply the
classifier and factory to each span, and thread the enclosing
resource's `agentic_layer.workforce` value into every event produced
under that resource. -/
def preprocessSpans (parse : String → Option JVal)
    (export_request : ExportTraceServiceRequest) : List Event :=
  export_request.resource_spans.flatMap (eventsUnderResource parse)

/-- `FilterCriteria` (`src/app/models/filters.py`): per-field optional
exact-match values. -/
structure FilterCriteria where
  conversation_id : Option String := none
  workforce : Option String := none
deriving Repr, DecidableEq

/-- `FilterCriteria.matches(event)` (`src/app/models/filters.py`): each
set field must equal the event's corresponding attribute exactly. -/
def FilterCriteria.matches (f : FilterCriteria) (e : Event) : Bool :=
  if (match f.conversation_id with
      | some c => decide (e.conversation_id ≠ c)
      | none => false) then false
  else if (match f.workforce with
      | some w => decide (e.workforce_name ≠ some w)
      | none => false) then false
  else true

/-- `FilterRegistry` state (`src/app/core/filter_registry.py`): two
value-to-last-seen maps plus the TTL.  Instants are abstract `Int`
ticks ordered like `datetime`; the TTL (`timedelta(hours=ttl_hours)`)
is a duration in the same ticks. -/
structure FilterRegistry where
  conversation_ids : List (String × Int)
  workforce_names : List (String × Int)
  ttl : Int
deriving Repr

/-- Python `del d[k]` composed over a key list, as `_cleanup` performs
it: remove every binding of each listed key. -/
def delKeys (m : List (String × Int)) (ks : List String) : List (String × Int) :=
  ks.foldl (fun m k => m.filter (fun kv => kv.1 ≠ k)) m

/-- `FilterRegistry._cleanup()` on one of the two maps: collect the
keys whose instant is ≤ `now − ttl`, then delete them. -/
def cleanupMap (m : List (String × Int)) (cutoff : Int) : List (String × Int) :=
  delKeys m ((m.filter (fun kv => kv.2 ≤ cutoff)).map Prod.fst)

/-- `FilterRegistry._cleanup()` (`src/app/core/filter_registry.py`):
evict expired entries from both maps; `now` is the query instant
(`datetime.now(timezone.utc)`). -/
def FilterRegistry.cleanup (reg : FilterRegistry) (now : Int) : FilterRegistry :=
  { reg with
    conversation_ids := cleanupMap reg.conversation_ids (now - reg.ttl)
    workforce_names := cleanupMap reg.workforce_names (now - reg.ttl) }

/-- `sorted(keys)`: Python's sort of the key view, modelled by
insertion sort under the lexicographic string order. -/
def pySorted (ks : List String) : List String :=
  List.insertionSort (· ≤ ·) ks

/-- `FilterRegistry.get_conversation_ids()`: evict, then return the
sorted remaining keys (paired with the mutated registry, since the
Python method updates `self` in place). -/
def FilterRegistry.getConversationIds (reg : FilterRegistry) (now : Int) :
    List String × FilterRegistry :=
  let reg' := reg.cleanup now
  (pySorted (reg'.conversation_ids.map Prod.fst), reg')

/-- `FilterRegistry.get_workforce_names()`: symmetric to
`get_conversation_ids`. -/
def FilterRegistry.getWorkforceNames (reg : FilterRegistry) (now : Int) :
    List String × FilterRegistry :=
  let reg' := reg.cleanup now
  (pySorted (reg'.workforce_names.map Prod.fst), reg')

/-- `FilterRegistry.register_event(conversation_id, workforce_name)`
(`src/app/core/filter_registry.py`): stamp `now` on the conversation
id, and on the workforce name when truthy. -/
def FilterRegistry.registerEvent (reg : FilterRegistry) (now : Int)
    (conversation_id : String) (workforce_name : Option String) : FilterRegistry :=
  { reg with
    conversation_ids := pyset reg.conversation_ids conversation_id now
    workforce_names :=
      match workforce_name with
      | some w => if w ≠ "" then pyset reg.workforce_names w now else reg.workforce_names
      | none => reg.workforce_names }

/-- A subscriber connection (`src/app/core/connection_manager.py`): the
WebSocket handle (opaque; only identity matters) and its filter. -/
structure Conn where
  ws : Nat
  filter_criteria : FilterCriteria
deriving Repr, DecidableEq

/-- `ConnectionManager.disconnect(websocket)`
(`src/app/core/connection_manager.py`): keep exactly the entries whose
handle differs from the given one. -/
def disconnect (connections : List Conn) (websocket : Nat) : List Conn :=
  connections.filter (fun c => c.ws ≠ websocket)

/-- `ConnectionManager.connection_count`. -/
def connectionCount (connections : List Conn) : Nat :=
  connections.length

/-- The observable outcome of one `send_message` call: the surviving
connection list, the attempted sends in order (handle, frame text),
the handles collected into `disconnected`, and `sent_count`. -/
structure SendResult where
  connections : List Conn
  attempts : List (Nat × String)
  disconnected : List Nat
  sent_count : Nat
deriving Repr

/-- The `for websocket, filter_criteria in self.connections` loop of
`send_message`: skip non-matching filters, attempt the send otherwise,
and collect the handle when the send raises.  `fails i` says whether
the `i`-th attempted send of this call raises (the failure pattern is
arbitrary, so the loop is stated for any pattern). -/
def sendLoop (event : Event) (message : String) (fails : Nat → Bool) :
    List Conn → Nat → List (Nat × String) → List Nat → Nat →
    List (Nat × String) × List Nat × Nat
  | [], _, attempts, disconnected, sent_count => (attempts, disconnected, sent_count)
  | c :: rest, i, attempts, disconnected, sent_count =>
      if !c.filter_criteria.matches event then
        sendLoop event message fails rest i attempts disconnected sent_count
      else if fails i then
        sendLoop event message fails rest (i + 1) (attempts ++ [(c.ws, message)])
          (disconnected ++ [c.ws]) sent_count
      else
        sendLoop event message fails rest (i + 1) (attempts ++ [(c.ws, message)])
          disconnected (sent_count + 1)

/-- `ConnectionManager.send_message(data, event)`
(`src/app/core/connection_manager.py`): return unchanged when there are
no connections; otherwise serialize `data` once (`dumps` stands for
`json.dumps(·, ensure_ascii=False)`), run the send loop, then drop the
collected handles via `disconnect` after the iteration. -/
def sendMessage {Data : Type} (dumps : Data → String) (data : Data) (event : Event)
    (connections : List Conn) (fails : Nat → Bool) : SendResult :=
  if connections = [] then
    { connections, attempts := [], disconnected := [], sent_count := 0 }
  else
    let message := dumps data
    let (attempts, disconnected, sent_count) :=
      sendLoop event message fails connections 0 [] [] 0
    { connections := disconnected.foldl disconnect connections
      attempts, disconnected, sent_count }

/-! ## Helper lemmas -/

/-- The flag lookup with Python default `False` has the same truthiness
as the bare lookup. -/
theorem optTruthy_orElse_false (o : Option AttrValue) :
    optTruthy (o.orElse (fun _ => some (.vBool false))) = optTruthy o := by
  cases o <;> rfl

/-! ## C1 — spans without the flag or the required attributes -/

/-- C1.  `_process_single_span` produces no event whenever the
flattened attributes lack a truthy `agent_communication_dashboard`
flag, or lack a truthy (for strings: non-empty) `conversation_id`, or
lack a truthy `agent_name`; in particular, a span without
`agent_communication_dashboard=true` yields no event regardless of the
other attributes. -/
theorem processSingleSpan_none_of_missing_required (parse : String → Option JVal)
    (span : Span)
    (h : optTruthy (dget (extractSpanAttributes span) "agent_communication_dashboard") = false ∨
         optTruthy (dget (extractSpanAttributes span) "conversation_id") = false ∨
         optTruthy (dget (extractSpanAttributes span) "agent_name") = false) :
    processSingleSpan parse span = none := by
  unfold processSingleSpan
  simp only [optTruthy_orElse_false]
  rcases h with h | h | h
  · simp [h]
  · by_cases hf : optTruthy (dget (extractSpanAttributes span) "agent_communication_dashboard")
    · simp [hf, h]
    · simp [hf]
  · by_cases hf : optTruthy (dget (extractSpanAttributes span) "agent_communication_dashboard")
    · simp [hf, h]
    · simp [hf]

/-- C1 witness: a `before_agent` span carrying `conversation_id`,
`agent_name`, `invocation_id` and a valid timestamp but no
`agent_communication_dashboard` flag produces no event. -/
theorem processSingleSpan_none_of_missing_required_witness :
    processSingleSpan (fun _ => none)
      { name := "before_agent",
        attributes := [("conversation_id", .str "c1"), ("agent_name", .str "alice"),
                       ("invocation_id", .str "inv-1")],
        start_time_unix_nano := 1700000000000000000 } = none :=
  processSingleSpan_none_of_missing_required (fun _ => none) _ (Or.inl (by decide))

/-! ## C10 — disconnect removes all entries of one handle, idempotently -/

/-- C10.  `ConnectionManager.disconnect(w)` keeps a subsequence of the
original connection list (so the surviving entries keep their original
order), keeps exactly the entries whose handle differs from `w`
(removing duplicates of `w` too), preserves the entries of every other
handle with multiplicity and order, and is idempotent — so a second
`disconnect(w)` changes neither the list nor `connection_count`. -/
theorem disconnect_removes_ws_idempotent (connections : List Conn) (w : Nat) :
    (disconnect connections w).Sublist connections ∧
    (∀ c : Conn, c ∈ disconnect connections w ↔ c ∈ connections ∧ c.ws ≠ w) ∧
    (∀ u : Nat, u ≠ w →
      (disconnect connections w).filter (fun c => c.ws = u) =
        connections.filter (fun c => c.ws = u)) ∧
    disconnect (disconnect connections w) w = disconnect connections w ∧
    connectionCount (disconnect (disconnect connections w) w) =
      connectionCount (disconnect connections w) := by
  refine ⟨List.filter_sublist _, ?_, ?_, ?_, ?_⟩
  · intro c
    simp [disconnect, List.mem_filter]
  · intro u hu
    unfold disconnect
    rw [List.filter_filter]
    apply List.filter_congr
    intro c _
    by_cases hc : c.ws = u
    · have hw : c.ws ≠ w := by rw [hc]; exact hu
      simp [hc, hw, hu]
    · simp [hc]
  · unfold disconnect
    rw [List.filter_filter]
    apply List.filter_congr
    intro c _
    by_cases hc : c.ws = w <;> simp [hc]
  · unfold disconnect connectionCount
    rw [List.filter_filter]
    congr 1
    apply List.filter_congr
    intro c _
    by_cases hc : c.ws = w <;> simp [hc]

/-- C10 witness: instantiating the theorem at a two-entry list with a
duplicated handle and at the remaining handle `2 ≠ 1`. -/
theorem disconnect_removes_ws_idempotent_witness :
    ((2 : Nat) ≠ 1) ∧
    (disconnect [⟨1, {}⟩, ⟨2, {}⟩, ⟨1, {}⟩] 1).Sublist [⟨1, {}⟩, ⟨2, {}⟩, ⟨1, {}⟩] ∧
    (∀ c : Conn, c ∈ disconnect [⟨1, {}⟩, ⟨2, {}⟩, ⟨1, {}⟩] 1 ↔
        c ∈ [⟨1, {}⟩, ⟨2, {}⟩, ⟨1, {}⟩] ∧ c.ws ≠ 1) ∧
    (disconnect [⟨1, {}⟩, ⟨2, {}⟩, ⟨1, {}⟩] 1).filter (fun c => c.ws = 2) =
      List.filter (fun c => c.ws = 2) [⟨1, {}⟩, ⟨2, {}⟩, ⟨1, {}⟩] :=
  ⟨by decide,
   (disconnect_removes_ws_idempotent [⟨1, {}⟩, ⟨2, {}⟩, ⟨1, {}⟩] 1).1,
   (disconnect_removes_ws_idempotent [⟨1, {}⟩, ⟨2, {}⟩, ⟨1, {}⟩] 1).2.1,
   (disconnect_removes_ws_idempotent [⟨1, {}⟩, ⟨2, {}⟩, ⟨1, {}⟩] 1).2.2.1 2 (by decide)⟩

/-! ## C6 — the filter predicate is exact conjunctive matching -/

/-- C6.  `FilterCriteria.matches` holds exactly when every set field
equals the event's corresponding attribute (`conversation_id` against
`event.conversation_id`, `workforce` against `event.workforce_name`);
a filter with no set fields matches every event, and a filter with
`conversation_id = c` only matches events whose `conversation_id` is
`c`. -/
theorem filterCriteria_matches_iff (f : FilterCriteria) (e : Event) :
    (f.matches e = true ↔
      ((f.conversation_id = none ∨ f.conversation_id = some e.conversation_id) ∧
       (f.workforce = none ∨ e.workforce_name = f.workforce))) ∧
    (FilterCriteria.matches {} e = true) ∧
    (∀ c : String, f.conversation_id = some c → f.matches e = true →
      e.conversation_id = c) := by
  have hmain : f.matches e = true ↔
      ((f.conversation_id = none ∨ f.conversation_id = some e.conversation_id) ∧
       (f.workforce = none ∨ e.workforce_name = f.workforce)) := by
    unfold FilterCriteria.matches
    rcases f with ⟨cid, wf⟩
    dsimp only
    rcases cid with _ | c <;> rcases wf with _ | w
    · simp
    · by_cases h2 : e.workforce_name = some w <;> simp [h2]
    · by_cases h1 : e.conversation_id = c
      · simp [h1]
      · have h1' : ¬c = e.conversation_id := fun h => h1 h.symm
        simp [h1, h1']
    · by_cases h1 : e.conversation_id = c <;> by_cases h2 : e.workforce_name = some w
      · simp [h1, h2]
      · simp [h1, h2]
      · have h1' : ¬c = e.conversation_id := fun h => h1 h.symm
        simp [h1, h1', h2]
      · have h1' : ¬c = e.conversation_id := fun h => h1 h.symm
        simp [h1, h1', h2]
  refine ⟨hmain, by rfl, ?_⟩
  intro c hc hm
  rcases (hmain.mp hm).1 with h | h
  · rw [hc] at h
    cases h
  · rw [hc] at h
    cases h
    rfl

/-- C6 witness: a filter on `conversation_id = "c1"` matches an event
of that conversation, and forces received events to carry it. -/
theorem filterCriteria_matches_iff_witness :
    (FilterCriteria.matches { conversation_id := some "c1" }
      { acting_agent := "alice", conversation_id := "c1", timestamp := "t",
        event_type := "agent_start", invocation_id := .vStr "", workforce_name := none,
        payload := .agentP } = true) ∧
    ({ acting_agent := "alice", conversation_id := "c1", timestamp := "t",
       event_type := "agent_start", invocation_id := .vStr "", workforce_name := none,
       payload := .agentP } : Event).conversation_id = "c1" :=
  ⟨((filterCriteria_matches_iff { conversation_id := some "c1" } _).1).mpr
      (by exact ⟨Or.inr rfl, Or.inl rfl⟩),
   (filterCriteria_matches_iff { conversation_id := some "c1" }
      { acting_agent := "alice", conversation_id := "c1", timestamp := "t",
        event_type := "agent_start", invocation_id := .vStr "", workforce_name := none,
        payload := .agentP }).2.2 "c1" rfl
      (((filterCriteria_matches_iff { conversation_id := some "c1" } _).1).mpr
        (by exact ⟨Or.inr rfl, Or.inl rfl⟩))⟩

/-! ## C5 — TTL eviction and sorted snapshots of the filter registry -/

/-- Folding key deletion over a key list filters out exactly the listed
keys. -/
theorem delKeys_eq_filter (ks : List String) :
    ∀ m : List (String × Int), delKeys m ks = m.filter (fun kv => decide (kv.1 ∉ ks)) := by
  induction ks with
  | nil => intro m; simp [delKeys]
  | cons k ks ih =>
      intro m
      have hstep : delKeys m (k :: ks) = delKeys (m.filter (fun kv => kv.1 ≠ k)) ks := rfl
      rw [hstep, ih, List.filter_filter]
      apply List.filter_congr
      intro kv _
      by_cases h1 : kv.1 = k <;> by_cases h2 : kv.1 ∈ ks <;> simp [h1, h2]

/-- Under unique keys, `_cleanup`'s collect-then-delete pass keeps
exactly the entries whose instant is strictly above the cutoff. -/
theorem cleanupMap_eq_filter (m : List (String × Int)) (cutoff : Int)
    (hnd : (m.map Prod.fst).Nodup) :
    cleanupMap m cutoff = m.filter (fun kv => decide (cutoff < kv.2)) := by
  unfold cleanupMap
  rw [delKeys_eq_filter]
  apply List.filter_congr
  intro kv hkv
  by_cases hexp : kv.2 ≤ cutoff
  · have hmem : kv.1 ∈ (m.filter (fun kv => decide (kv.2 ≤ cutoff))).map Prod.fst := by
      exact List.mem_map_of_mem _ (List.mem_filter.mpr ⟨hkv, by simpa using hexp⟩)
    simp [hmem, hexp, not_lt.mpr hexp]
  · have hnmem : kv.1 ∉ (m.filter (fun kv => decide (kv.2 ≤ cutoff))).map Prod.fst := by
      intro hmem
      rcases List.mem_map.mp hmem with ⟨kv', hkv', hfst⟩
      rcases List.mem_filter.mp hkv' with ⟨hkv'm, hle⟩
      have : kv' = kv := List.inj_on_of_nodup_map hnd hkv'm hkv hfst
      rw [this] at hle
      exact hexp (by simpa using hle)
    simp [hnmem, lt_of_not_ge hexp]

/-- C5.  If both registry maps have unique keys (as Python dicts do),
then a `get_conversation_ids()` / `get_workforce_names()` query at
instant `now` first deletes from the queried maps exactly the entries
whose stored instant is ≤ `now − ttl`, and returns exactly the keys
whose last-seen instant is strictly greater than `now − ttl`, as a
duplicate-free list sorted in ascending order. -/
theorem filterRegistry_get_sorted_unexpired (reg : FilterRegistry) (now : Int)
    (hc : (reg.conversation_ids.map Prod.fst).Nodup)
    (hw : (reg.workforce_names.map Prod.fst).Nodup) :
    ((reg.getConversationIds now).2.conversation_ids =
        reg.conversation_ids.filter (fun kv => decide (now - reg.ttl < kv.2))) ∧
    (∀ k : String, k ∈ (reg.getConversationIds now).1 ↔
        ∃ t : Int, (k, t) ∈ reg.conversation_ids ∧ now - reg.ttl < t) ∧
    (reg.getConversationIds now).1.Nodup ∧
    List.Sorted (· ≤ ·) (reg.getConversationIds now).1 ∧
    ((reg.getWorkforceNames now).2.workforce_names =
        reg.workforce_names.filter (fun kv => decide (now - reg.ttl < kv.2))) ∧
    (∀ k : String, k ∈ (reg.getWorkforceNames now).1 ↔
        ∃ t : Int, (k, t) ∈ reg.workforce_names ∧ now - reg.ttl < t) ∧
    (reg.getWorkforceNames now).1.Nodup ∧
    List.Sorted (· ≤ ·) (reg.getWorkforceNames now).1 := by
  have key : ∀ (m : List (String × Int)), (m.map Prod.fst).Nodup →
      (cleanupMap m (now - reg.ttl) = m.filter (fun kv => decide (now - reg.ttl < kv.2))) ∧
      (∀ k : String, k ∈ pySorted ((cleanupMap m (now - reg.ttl)).map Prod.fst) ↔
          ∃ t : Int, (k, t) ∈ m ∧ now - reg.ttl < t) ∧
      (pySorted ((cleanupMap m (now - reg.ttl)).map Prod.fst)).Nodup ∧
      List.Sorted (· ≤ ·) (pySorted ((cleanupMap m (now - reg.ttl)).map Prod.fst)) := by
    intro m hnd
    have hclean := cleanupMap_eq_filter m (now - reg.ttl) hnd
    have hperm : List.Perm (pySorted ((cleanupMap m (now - reg.ttl)).map Prod.fst))
        ((cleanupMap m (now - reg.ttl)).map Prod.fst) := List.perm_insertionSort _ _
    refine ⟨hclean, ?_, ?_, List.sorted_insertionSort _ _⟩
    · intro k
      rw [hperm.mem_iff, hclean]
      constructor
      · intro hk
        rcases List.mem_map.mp hk with ⟨kv, hkv, hfst⟩
        rcases List.mem_filter.mp hkv with ⟨hm, hlt⟩
        exact ⟨kv.2, by rwa [← hfst, Prod.mk.eta], by simpa using hlt⟩
      · rintro ⟨t, hmem, hlt⟩
        exact List.mem_map_of_mem _ (List.mem_filter.mpr ⟨hmem, by simpa using hlt⟩)
    · refine hperm.nodup_iff.mpr ?_
      rw [hclean]
      exact ((List.filter_sublist m).map Prod.fst).nodup hnd
  obtain ⟨h1, h2, h3, h4⟩ := key reg.conversation_ids hc
  obtain ⟨h5, h6, h7, h8⟩ := key reg.workforce_names hw
  exact ⟨h1, h2, h3, h4, h5, h6, h7, h8⟩

/-- C5 witness: a three-entry registry with one expired conversation at
`now = 100`, `ttl = 10`: the expired key is evicted and the remaining
keys come back sorted. -/
theorem filterRegistry_get_sorted_unexpired_witness :
    ((FilterRegistry.getConversationIds
        { conversation_ids := [("b", 95), ("a", 90), ("c", 97)],
          workforce_names := [("wf", 99)], ttl := 10 } 100).2.conversation_ids =
      [("b", 95), ("c", 97)]) ∧
    ("c" ∈ (FilterRegistry.getConversationIds
        { conversation_ids := [("b", 95), ("a", 90), ("c", 97)],
          workforce_names := [("wf", 99)], ttl := 10 } 100).1 ↔
      ∃ t : Int, ("c", t) ∈ [(("b" : String), (95 : Int)), ("a", 90), ("c", 97)] ∧
        (100 : Int) - 10 < t) := by
  have h := filterRegistry_get_sorted_unexpired
    { conversation_ids := [("b", 95), ("a", 90), ("c", 97)],
      workforce_names := [("wf", 99)], ttl := 10 } 100 (by decide) (by decide)
  exact ⟨by rw [h.1]; rfl, h.2.1 "c"⟩

/-! ## C7 — publish: one serialization, all matching attempted, deferred eviction -/

/-- Folding `disconnect` over a handle list filters out exactly the
entries with a listed handle. -/
theorem foldl_disconnect_eq_filter (ws : List Nat) :
    ∀ connections : List Conn,
      ws.foldl disconnect connections =
        connections.filter (fun c => decide (c.ws ∉ ws)) := by
  induction ws with
  | nil => intro connections; simp
  | cons w ws ih =>
      intro connections
      have hstep : (w :: ws).foldl disconnect connections =
          ws.foldl disconnect (disconnect connections w) := rfl
      rw [hstep, ih]
      unfold disconnect
      rw [List.filter_filter]
      apply List.filter_congr
      intro c _
      by_cases h1 : c.ws = w <;> by_cases h2 : c.ws ∈ ws <;> simp [h1, h2]

/-- Unrolled characterization of `send_message`'s subscriber loop: the
attempts extend the accumulator with one `(handle, message)` entry per
matching connection in order, and the collected `disconnected` handles
are exactly the matching connections whose attempt index fails. -/
theorem sendLoop_eq (event : Event) (message : String) (fails : Nat → Bool) :
    ∀ (conns : List Conn) (i : Nat) (attempts : List (Nat × String))
      (disconnected : List Nat) (sent_count : Nat),
      sendLoop event message fails conns i attempts disconnected sent_count =
        (attempts ++ (conns.filter (fun c => c.filter_criteria.matches event)).map
            (fun c => (c.ws, message)),
         disconnected ++
           (((conns.filter (fun c => c.filter_criteria.matches event)).enumFrom i).filter
              (fun p => fails p.1)).map (fun p => p.2.ws),
         sent_count +
           (((conns.filter (fun c => c.filter_criteria.matches event)).enumFrom i).filter
              (fun p => !fails p.1)).length) := by
  intro conns
  induction conns with
  | nil => intro i attempts disconnected sent_count; simp [sendLoop]
  | cons c rest ih =>
      intro i attempts disconnected sent_count
      have hstep : sendLoop event message fails (c :: rest) i attempts disconnected sent_count =
          (if !c.filter_criteria.matches event then
            sendLoop event message fails rest i attempts disconnected sent_count
          else if fails i then
            sendLoop event message fails rest (i + 1) (attempts ++ [(c.ws, message)])
              (disconnected ++ [c.ws]) sent_count
          else
            sendLoop event message fails rest (i + 1) (attempts ++ [(c.ws, message)])
              disconnected (sent_count + 1)) := rfl
      rw [hstep]
      by_cases hm : c.filter_criteria.matches event
      · by_cases hf : fails i
        · simp only [hm, hf, Bool.not_true, Bool.false_eq_true, if_false, if_true]
          rw [ih]
          simp [hm, hf, List.filter_cons, List.append_assoc]
        · simp only [hm, hf, Bool.not_true, Bool.false_eq_true, if_false]
          rw [ih]
          simp [hm, hf, List.filter_cons, List.append_assoc]
          omega
      · simp only [Bool.not_eq_true] at hm
        simp only [hm, Bool.not_false, if_true]
        rw [ih]
        simp [hm, List.filter_cons]

/-- C7.  For any connection list, failure pattern and event,
`send_message` (i) attempts exactly one send per connection whose
filter matches the event, in list order, each carrying the single
serialized frame `dumps data` — in particular matching subscribers
after a failed one are still attempted, since the attempt list does
not depend on the failure pattern; (ii) collects as `disconnected`
exactly the matching connections whose attempt failed; and (iii) only
after the iteration drops from the connection list exactly the entries
whose handle is among the failed ones. -/
theorem sendMessage_attempts_and_eviction {Data : Type} (dumps : Data → String)
    (data : Data) (event : Event) (connections : List Conn) (fails : Nat → Bool) :
    ((sendMessage dumps data event connections fails).attempts =
        (connections.filter (fun c => c.filter_criteria.matches event)).map
          (fun c => (c.ws, dumps data))) ∧
    ((sendMessage dumps data event connections fails).disconnected =
        (((connections.filter (fun c => c.filter_criteria.matches event)).enumFrom 0).filter
            (fun p => fails p.1)).map (fun p => p.2.ws)) ∧
    ((sendMessage dumps data event connections fails).connections =
        connections.filter (fun c =>
          decide (c.ws ∉ (sendMessage dumps data event connections fails).disconnected))) := by
  unfold sendMessage
  by_cases hempty : connections = []
  · simp [hempty]
  · simp only [hempty, if_false]
    rw [sendLoop_eq]
    simp only [List.nil_append]
    exact ⟨trivial, trivial, foldl_disconnect_eq_filter _ _⟩

/-- C7 witness: two matching subscribers and one non-matching one, with
the first attempted send failing: both matching subscribers are
attempted with the same frame, and only the failed handle is dropped. -/
theorem sendMessage_attempts_and_eviction_witness :
    ((sendMessage (fun s : String => s) "frame"
        { acting_agent := "a", conversation_id := "c1", timestamp := "t",
          event_type := "agent_start", invocation_id := .vStr "",
          workforce_name := none, payload := .agentP }
        [⟨1, {}⟩, ⟨2, { conversation_id := some "c2" }⟩, ⟨3, {}⟩]
        (fun i => i = 0)).attempts = [(1, "frame"), (3, "frame")]) ∧
    ((sendMessage (fun s : String => s) "frame"
        { acting_agent := "a", conversation_id := "c1", timestamp := "t",
          event_type := "agent_start", invocation_id := .vStr "",
          workforce_name := none, payload := .agentP }
        [⟨1, {}⟩, ⟨2, { conversation_id := some "c2" }⟩, ⟨3, {}⟩]
        (fun i => i = 0)).connections = [⟨2, { conversation_id := some "c2" }⟩, ⟨3, {}⟩]) := by
  have h := sendMessage_attempts_and_eviction (fun s : String => s) "frame"
    { acting_agent := "a", conversation_id := "c1", timestamp := "t",
      event_type := "agent_start", invocation_id := .vStr "",
      workforce_name := none, payload := .agentP }
    [⟨1, {}⟩, ⟨2, { conversation_id := some "c2" }⟩, ⟨3, {}⟩]
    (fun i => decide (i = 0))
  exact ⟨by rw [h.1]; rfl, by rw [h.2.2, h.2.1]; rfl⟩

/-! ## C2 — the span classifier and the set of producible event types -/

/-- Two boolean prefixes of one list are comparable. -/
theorem isPrefixOf_comparable :
    ∀ (l p q : List Char), p.isPrefixOf l → q.isPrefixOf l →
      p.isPrefixOf q ∨ q.isPrefixOf p := by
  intro l
  induction l with
  | nil =>
      intro p q hp hq
      cases p <;> cases q <;> simp_all [List.isPrefixOf]
  | cons a rest ih =>
      intro p q hp hq
      match p, q with
      | [], _ => left; simp [List.isPrefixOf]
      | x :: p', [] => right; simp [List.isPrefixOf]
      | x :: p', y :: q' =>
          simp only [List.isPrefixOf] at hp hq ⊢
          simp only [Bool.and_eq_true, beq_iff_eq] at hp hq
          obtain ⟨hx, hp'⟩ := hp
          obtain ⟨hy, hq'⟩ := hq
          subst hx
          subst hy
          rcases ih p' q' hp' hq' with h | h
          · left; simp [h]
          · right; simp [h]

/-- If two patterns are not prefixes of one another, a string starting
with the first cannot start with the second. -/
theorem pyStartsWith_excludes {p q : String}
    (hpq : p.data.isPrefixOf q.data = false) (hqp : q.data.isPrefixOf p.data = false)
    {s : String} (hp : pyStartsWith s p = true) : pyStartsWith s q = false := by
  unfold pyStartsWith at *
  by_contra h
  have hq : q.data.isPrefixOf s.data = true := by
    revert h
    cases q.data.isPrefixOf s.data <;> simp
  rcases isPrefixOf_comparable s.data p.data q.data hp hq with hc | hc
  · rw [hpq] at hc; cases hc
  · rw [hqp] at hc; cases hc

/-- The ten `event_type` strings a produced event can carry: the eight
classifier outputs plus the two invoke-agent upgrades. -/
def producibleEventTypes : List String :=
  ["agent_start", "agent_end", "llm_call_start", "llm_call_end", "llm_call_error",
   "tool_call_start", "tool_call_end", "tool_call_error",
   "invoke_agent_start", "invoke_agent_end"]

/-- The classifier agrees with the spec's prefix table: lower-case the
name, then take the first matching prefix of the table.  (The two
branch orders agree because no two table prefixes are prefixes of one
another, so at most one can match.) -/
theorem determineEventType_eq_specTable (s : String) :
    determineEventType s = specPrefixTable (pyLower s) := by
  unfold determineEventType specPrefixTable
  by_cases hba : pyStartsWith (pyLower s) "before_agent"
  · simp [hba]
  · by_cases haa : pyStartsWith (pyLower s) "after_agent"
    · have h1 : pyStartsWith (pyLower s) "before_model" = false :=
        pyStartsWith_excludes (by decide) (by decide) haa
      have h2 : pyStartsWith (pyLower s) "before_llm" = false :=
        pyStartsWith_excludes (by decide) (by decide) haa
      have h3 : pyStartsWith (pyLower s) "after_model" = false :=
        pyStartsWith_excludes (by decide) (by decide) haa
      have h4 : pyStartsWith (pyLower s) "after_llm" = false :=
        pyStartsWith_excludes (by decide) (by decide) haa
      have h5 : pyStartsWith (pyLower s) "on_model_error" = false :=
        pyStartsWith_excludes (by decide) (by decide) haa
      have h6 : pyStartsWith (pyLower s) "before_tool" = false :=
        pyStartsWith_excludes (by decide) (by decide) haa
      have h7 : pyStartsWith (pyLower s) "after_tool" = false :=
        pyStartsWith_excludes (by decide) (by decide) haa
      have h8 : pyStartsWith (pyLower s) "on_tool_error" = false :=
        pyStartsWith_excludes (by decide) (by decide) haa
      simp [hba, haa, h1, h2, h3, h4, h5, h6, h7, h8]
    · simp [hba, haa]

/-- The classifier only ever returns one of its eight literal outputs. -/
theorem determineEventType_mem (s : String) (et : String)
    (h : determineEventType s = some et) :
    et ∈ ["agent_start", "agent_end", "llm_call_start", "llm_call_end", "llm_call_error",
          "tool_call_start", "tool_call_end", "tool_call_error"] := by
  unfold determineEventType at h
  dsimp only at h
  split_ifs at h <;> simp_all

/-- Whatever the factory dispatch produces carries one of the ten
producible `event_type` strings. -/
theorem createCommunicationEvent_event_type (parse : String → Option JVal)
    (et acting conv : String) (attributes : List (String × AttrValue)) (ts : String)
    (e : Event) (h : createCommunicationEvent parse et acting conv attributes ts = some e) :
    e.event_type ∈ producibleEventTypes := by
  unfold createCommunicationEvent at h
  split_ifs at h
  · injection h with h; subst h; simp [createAgentStartEvent, producibleEventTypes]
  · injection h with h; subst h; simp [createAgentEndEvent, producibleEventTypes]
  · injection h with h; subst h; simp [createLlmCallStartEvent, producibleEventTypes]
  · injection h with h; subst h; simp [createLlmCallEndEvent, producibleEventTypes]
  · injection h with h; subst h; simp [createLlmCallErrorEvent, producibleEventTypes]
  · injection h with h; subst h
    by_cases hc : isAgentToolCall attributes <;>
      simp [createToolCallStartEvent, hc, producibleEventTypes]
  · injection h with h; subst h
    by_cases hc : isAgentToolCall attributes <;>
      simp [createToolCallEndEvent, hc, producibleEventTypes]
  · injection h with h; subst h; simp [createToolCallErrorEvent, producibleEventTypes]

/-- C2 (amended).  `_determine_event_type` lower-cases the span name
and returns exactly what the spec's prefix table gives (first matching
prefix; absent when none matches) — and every event produced by
`_process_single_span` has an `event_type` drawn from the fixed set of
TEN strings: the eight classifier outputs plus `invoke_agent_start`
and `invoke_agent_end`, which the tool-call factories substitute when
the agent-tool heuristic fires.  (The claim's fixed set of NINE
strings is refuted by `eventType_nine_strings_counterexample`.) -/
theorem determineEventType_table_and_producible :
    (∀ s : String, determineEventType s = specPrefixTable (pyLower s)) ∧
    (∀ (parse : String → Option JVal) (span : Span) (e : Event),
      processSingleSpan parse span = some e → e.event_type ∈ producibleEventTypes) := by
  refine ⟨determineEventType_eq_specTable, ?_⟩
  intro parse span e h
  unfold processSingleSpan at h
  dsimp only at h
  split_ifs at h
  cases hdet : determineEventType span.name with
  | none => simp [hdet] at h
  | some et =>
      cases hiso : convertTimestampToIso span.start_time_unix_nano with
      | none => simp [hdet, hiso] at h
      | some ts =>
          rw [hdet, hiso] at h
          exact createCommunicationEvent_event_type parse et _ _ _ _ e h

/-- The spec's S4 scenario span: `before_tool` with
`tool_name="cross_selling_agent"` and only `args.request`. -/
def spanS4 : Span :=
  { name := "before_tool_call",
    attributes := [("agent_communication_dashboard", .bool true),
                   ("conversation_id", .str "c1"), ("agent_name", .str "alice"),
                   ("tool_name", .str "cross_selling_agent"),
                   ("args.request", .str "Analyze cust001")],
    start_time_unix_nano := 1700000000000000000 }

/-- C2 witness: the S4 span produces an event whose `event_type`
(`invoke_agent_start`) lies in the producible ten-string set, by the
theorem applied at this concrete span. -/
theorem determineEventType_table_and_producible_witness :
    ((processSingleSpan (fun _ => none) spanS4).map Event.event_type =
      some "invoke_agent_start") ∧
    "invoke_agent_start" ∈ producibleEventTypes := by
  constructor
  · rfl
  · cases hp : processSingleSpan (fun _ => none) spanS4 with
    | none =>
        have h0 : (processSingleSpan (fun _ => none) spanS4).map Event.event_type =
            some "invoke_agent_start" := rfl
        rw [hp] at h0
        cases h0
    | some e =>
        have h0 : (processSingleSpan (fun _ => none) spanS4).map Event.event_type =
            some "invoke_agent_start" := rfl
        rw [hp] at h0
        injection h0 with h0
        rw [← h0]
        exact determineEventType_table_and_producible.2 (fun _ => none) spanS4 e hp

/-- The span header shared by the counterexample spans: flag set,
conversation and agent present. -/
def cxHeader : List (String × AnyValue) :=
  [("agent_communication_dashboard", .bool true), ("conversation_id", .str "c"),
   ("agent_name", .str "a")]

/-- A counterexample span with only the header attributes. -/
def cxSpan (n : String) : Span :=
  { name := n, attributes := cxHeader, start_time_unix_nano := 0 }

/-- A counterexample tool span matching the AgentTool heuristic. -/
def cxAgentSpan (n : String) : Span :=
  { name := n,
    attributes := cxHeader ++ [("tool_name", .str "sub_agent"), ("args.request", .str "r")],
    start_time_unix_nano := 0 }

/-- Ten spans that produce ten events with pairwise distinct
`event_type` values. -/
def cxSpans : List Span :=
  [cxSpan "before_agent", cxSpan "after_agent", cxSpan "before_model", cxSpan "after_model",
   cxSpan "on_model_error", cxSpan "before_tool", cxSpan "after_tool", cxSpan "on_tool_error",
   cxAgentSpan "before_tool", cxAgentSpan "after_tool"]

/-- C2 counterexample to the claim as stated: no set of at most nine
strings contains the `event_type` of every produced event — the ten
concrete spans of `cxSpans` produce ten events with ten pairwise
distinct `event_type` values. -/
theorem eventType_nine_strings_counterexample :
    ¬ ∃ S : Finset String, S.card ≤ 9 ∧
      ∀ span ∈ cxSpans, ∀ e : Event,
        processSingleSpan (fun _ => none) span = some e → e.event_type ∈ S := by
  rintro ⟨S, hcard, hmem⟩
  have key : ∀ sp ∈ cxSpans, ∀ et : String,
      (processSingleSpan (fun _ => none) sp).map Event.event_type = some et → et ∈ S := by
    intro sp hsp et het
    cases hp : processSingleSpan (fun _ => none) sp with
    | none => rw [hp] at het; cases het
    | some e =>
        rw [hp] at het
        injection het with het
        subst het
        exact hmem sp hsp e hp
  have hsub : producibleEventTypes.toFinset ⊆ S := by
    intro x hx
    simp only [producibleEventTypes, List.toFinset_cons, List.toFinset_nil,
      Finset.mem_insert, Finset.not_mem_empty, or_false] at hx
    rcases hx with h | h | h | h | h | h | h | h | h | h <;> subst h
    · exact key (cxSpan "before_agent") (by simp [cxSpans]) _ rfl
    · exact key (cxSpan "after_agent") (by simp [cxSpans]) _ rfl
    · exact key (cxSpan "before_model") (by simp [cxSpans]) _ rfl
    · exact key (cxSpan "after_model") (by simp [cxSpans]) _ rfl
    · exact key (cxSpan "on_model_error") (by simp [cxSpans]) _ rfl
    · exact key (cxSpan "before_tool") (by simp [cxSpans]) _ rfl
    · exact key (cxSpan "after_tool") (by simp [cxSpans]) _ rfl
    · exact key (cxSpan "on_tool_error") (by simp [cxSpans]) _ rfl
    · exact key (cxAgentSpan "before_tool") (by simp [cxSpans]) _ rfl
    · exact key (cxAgentSpan "after_tool") (by simp [cxSpans]) _ rfl
  have hten : producibleEventTypes.toFinset.card = 10 := by decide
  have := Finset.card_le_card hsub
  omega

/-! ## C3 / C4 — the agent-tool heuristic and the tool-response JSON unwrap -/

/-- Looking up the key just assigned yields the assigned value. -/
theorem dget_pyset_same {V : Type} (m : List (String × V)) (k : String) (v : V) :
    dget (pyset m k v) k = some v := by
  induction m with
  | nil => simp [pyset, dget]
  | cons kv rest ih =>
      by_cases h : kv.1 = k
      · simp [pyset, dget, h]
      · simp [pyset, dget, h, ih]

/-- Assignment leaves every other key's binding unchanged. -/
theorem dget_pyset_other {V : Type} (m : List (String × V)) (k k' : String) (v : V)
    (h : k' ≠ k) :
    dget (pyset m k v) k' = dget m k' := by
  have hkk : ¬k = k' := fun hh => h hh.symm
  induction m with
  | nil => simp [pyset, dget, hkk]
  | cons kv rest ih =>
      by_cases hk : kv.1 = k
      · subst hk
        simp [pyset, dget, hkk]
      · simp [pyset, dget, hk, ih]

/-- Embedding every value of an association list commutes with lookup. -/
theorem dget_map_attrToJ (m : List (String × AttrValue)) (k : String) :
    dget (m.map (fun kv => (kv.1, attrToJ kv.2))) k = (dget m k).map attrToJ := by
  induction m with
  | nil => simp [dget]
  | cons kv rest ih =>
      by_cases h : kv.1 = k
      · simp [dget, h]
      · simp [dget, h, ih]

/-- When the `args.`-prefixed keys are exactly `["args.request"]` and
the tool is not the legacy transfer, the heuristic fires. -/
theorem isAgentToolCall_of_agentTool (attributes : List (String × AttrValue))
    (tn : AttrValue)
    (hargs : (attributes.map Prod.fst).filter (fun k => pyStartsWith k "args.") =
      ["args.request"])
    (htn : dget attributes "tool_name" = some tn)
    (hne : tn ≠ .vStr "transfer_to_agent") :
    isAgentToolCall attributes = true := by
  unfold isAgentToolCall
  rw [htn, hargs]
  simp [hne]

/-- C3.  For a tool-call span in the single-argument AgentTool pattern
(exactly one `args.`-prefixed key, namely `args.request`, and
`tool_name ≠ "transfer_to_agent"`), the start/end factories produce an
`invoke_agent_start` / `invoke_agent_end` event whose `invoked_agent`
is the span's `tool_name` attribute; for the legacy
`tool_name = "transfer_to_agent"` the `invoked_agent` is the
`args.agent_name` attribute, defaulting to the empty string. -/
theorem toolCall_agent_upgrade (parse : String → Option JVal)
    (acting conv ts : String) (attributes : List (String × AttrValue)) :
    (∀ tn : AttrValue,
      (attributes.map Prod.fst).filter (fun k => pyStartsWith k "args.") =
        ["args.request"] →
      dget attributes "tool_name" = some tn →
      tn ≠ .vStr "transfer_to_agent" →
      ((createToolCallStartEvent acting conv ts attributes).event_type =
          "invoke_agent_start" ∧
       (createToolCallStartEvent acting conv ts attributes).invokedAgent? = some tn ∧
       (createToolCallEndEvent parse acting conv ts attributes).event_type =
          "invoke_agent_end" ∧
       (createToolCallEndEvent parse acting conv ts attributes).invokedAgent? = some tn)) ∧
    (dget attributes "tool_name" = some (.vStr "transfer_to_agent") →
      ((createToolCallStartEvent acting conv ts attributes).event_type =
          "invoke_agent_start" ∧
       (createToolCallStartEvent acting conv ts attributes).invokedAgent? =
          some ((dget attributes "args.agent_name").getD (.vStr "")) ∧
       (createToolCallEndEvent parse acting conv ts attributes).event_type =
          "invoke_agent_end" ∧
       (createToolCallEndEvent parse acting conv ts attributes).invokedAgent? =
          some ((dget attributes "args.agent_name").getD (.vStr "")))) := by
  constructor
  · intro tn hargs htn hne
    have hagent : isAgentToolCall attributes = true :=
      isAgentToolCall_of_agentTool attributes tn hargs htn hne
    have hinv : extractInvokedAgent attributes = tn := by
      unfold extractInvokedAgent
      rw [htn]
      simp [hne]
    refine ⟨?_, ?_, ?_, ?_⟩ <;>
      simp [createToolCallStartEvent, createToolCallEndEvent, hagent, hinv,
        Event.invokedAgent?]
  · intro htr
    have hagent : isAgentToolCall attributes = true := by
      unfold isAgentToolCall
      rw [htr]
      simp
    have hinv : extractInvokedAgent attributes =
        (dget attributes "args.agent_name").getD (.vStr "") := by
      unfold extractInvokedAgent
      rw [htr]
      simp
    refine ⟨?_, ?_, ?_, ?_⟩ <;>
      simp [createToolCallStartEvent, createToolCallEndEvent, hagent, hinv,
        Event.invokedAgent?]

/-- C3 witness: the theorem applied to the S4 attributes
(`tool_name="cross_selling_agent"`, only `args.request`) and to the S5
attributes (`tool_name="transfer_to_agent"`,
`args.agent_name="weather-agent"`). -/
theorem toolCall_agent_upgrade_witness :
    ((createToolCallStartEvent "a" "c" "t"
        [("tool_name", .vStr "cross_selling_agent"),
         ("args.request", .vStr "Analyze cust001")]).event_type = "invoke_agent_start" ∧
     (createToolCallStartEvent "a" "c" "t"
        [("tool_name", .vStr "cross_selling_agent"),
         ("args.request", .vStr "Analyze cust001")]).invokedAgent? =
       some (.vStr "cross_selling_agent")) ∧
    ((createToolCallEndEvent (fun _ => none) "a" "c" "t"
        [("tool_name", .vStr "transfer_to_agent"),
         ("args.agent_name", .vStr "weather-agent")]).event_type = "invoke_agent_end" ∧
     (createToolCallEndEvent (fun _ => none) "a" "c" "t"
        [("tool_name", .vStr "transfer_to_agent"),
         ("args.agent_name", .vStr "weather-agent")]).invokedAgent? =
       some (.vStr "weather-agent")) := by
  have h1 := (toolCall_agent_upgrade (fun _ => none) "a" "c" "t"
    [("tool_name", .vStr "cross_selling_agent"),
     ("args.request", .vStr "Analyze cust001")]).1
    (.vStr "cross_selling_agent") (by decide) (by decide) (by decide)
  have h2 := (toolCall_agent_upgrade (fun _ => none) "a" "c" "t"
    [("tool_name", .vStr "transfer_to_agent"),
     ("args.agent_name", .vStr "weather-agent")]).2 (by decide)
  exact ⟨⟨h1.1, h1.2.1⟩, ⟨h2.2.2.1, by rw [h2.2.2.2]; rfl⟩⟩

/-- C4.  `create_tool_call_end_event` (both its `tool_call_end` and
`invoke_agent_end` outcomes) carries a response mapping obtained from
the extracted one by the JSON unwrap: when the extracted mapping binds
`text` to a string `s`, the built event's `response["text"]` is the
parsed value if `parse` (i.e. `json.loads`) accepts `s` and the
unchanged string `s` if it does not; every other key's binding is
carried over unchanged.  Hence the emitted `.text` is either a parsed
JSON value or a string rejected by the parser. -/
theorem toolCallEnd_response_unwrap (parse : String → Option JVal)
    (acting conv ts : String) (attributes : List (String × AttrValue)) :
    ∃ resp : List (String × JVal),
      (createToolCallEndEvent parse acting conv ts attributes).response? = some resp ∧
      (∀ s : String, dget (extractToolResponse attributes) "text" = some (.vStr s) →
        (∀ j : JVal, parse s = some j → dget resp "text" = some j) ∧
        (parse s = none → dget resp "text" = some (.jStr s))) ∧
      (∀ k : String, k ≠ "text" →
        dget resp k = (dget (extractToolResponse attributes) k).map attrToJ) := by
  refine ⟨unwrapResponseText parse (extractToolResponse attributes), ?_, ?_, ?_⟩
  · unfold createToolCallEndEvent
    by_cases hagent : isAgentToolCall attributes <;>
      simp [hagent, Event.response?]
  · intro s hs
    constructor
    · intro j hj
      simp only [unwrapResponseText, hs, hj]
      exact dget_pyset_same _ _ _
    · intro hj
      simp only [unwrapResponseText, hs, hj]
      rw [dget_map_attrToJ, hs]
      rfl
  · intro k hk
    cases htext : dget (extractToolResponse attributes) "text" with
    | none =>
        simp only [unwrapResponseText, htext]
        rw [dget_map_attrToJ]
    | some v =>
        cases v with
        | vStr s =>
            cases hp : parse s with
            | none =>
                simp only [unwrapResponseText, htext, hp]
                rw [dget_map_attrToJ]
            | some j =>
                simp only [unwrapResponseText, htext, hp]
                rw [dget_pyset_other _ _ _ _ hk, dget_map_attrToJ]
        | vInt n =>
            simp only [unwrapResponseText, htext]
            rw [dget_map_attrToJ]
        | vDouble q =>
            simp only [unwrapResponseText, htext]
            rw [dget_map_attrToJ]
        | vBool b =>
            simp only [unwrapResponseText, htext]
            rw [dget_map_attrToJ]

/-- C4 witness: the S3 scenario — `tool_response.text='{"temp":7}'`
under a parser that accepts exactly that string — yields
`response["text"]` bound to the parsed object, and leaves the sibling
`status` key untouched. -/
theorem toolCallEnd_response_unwrap_witness :
    ∃ resp : List (String × JVal),
      (createToolCallEndEvent
          (fun s => if s = "\x7b\"temp\":7\x7d" then
            some (.jObj [("temp", .jInt 7)]) else none)
          "a" "c" "t"
          [("tool_name", .vStr "get_weather"), ("args.city", .vStr "Munich"),
           ("tool_response.text", .vStr ("\x7b\"temp\":7\x7d")),
           ("tool_response.status", .vStr "ok")]).response? = some resp ∧
      dget resp "text" = some (.jObj [("temp", .jInt 7)]) ∧
      dget resp "status" = some (.jStr "ok") := by
  obtain ⟨resp, hresp, htext, hother⟩ := toolCallEnd_response_unwrap
    (fun s => if s = "\x7b\"temp\":7\x7d" then
      some (.jObj [("temp", .jInt 7)]) else none)
    "a" "c" "t"
    [("tool_name", .vStr "get_weather"), ("args.city", .vStr "Munich"),
     ("tool_response.text", .vStr ("\x7b\"temp\":7\x7d")),
     ("tool_response.status", .vStr "ok")]
  refine ⟨resp, hresp, ?_, ?_⟩
  · exact (htext "\x7b\"temp\":7\x7d" (by rfl)).1 (.jObj [("temp", .jInt 7)])
      (by rw [if_pos rfl])
  · rw [hother "status" (by decide)]
    rfl

/-! ## C8 — workforce propagation from resource attributes -/

/-- C8.  Every event returned by the driver comes from some
`ResourceSpans` entry of the request and carries `workforce_name`
equal to that entry's decoded `agentic_layer.workforce` resource
attribute; conversely every event produced under an entry appears in
the output with that `workforce_name`.  When the resource attribute is
absent the workforce is `none` (null), and when it is a string `w` it
is `some w`. -/
theorem preprocessSpans_workforce (parse : String → Option JVal)
    (export_request : ExportTraceServiceRequest) :
    (∀ e : Event, e ∈ preprocessSpans parse export_request →
      ∃ rs ∈ export_request.resource_spans,
        e ∈ eventsUnderResource parse rs ∧ e.workforce_name = workforceOf rs) ∧
    (∀ rs ∈ export_request.resource_spans, ∀ e : Event,
      e ∈ eventsUnderResource parse rs →
      e ∈ preprocessSpans parse export_request ∧ e.workforce_name = workforceOf rs) ∧
    (∀ rs : ResourceSpans,
      dget (flattenAttrList rs.resource_attributes) "agentic_layer.workforce" = none →
      workforceOf rs = none) ∧
    (∀ (rs : ResourceSpans) (w : String),
      dget (flattenAttrList rs.resource_attributes) "agentic_layer.workforce" =
        some (.vStr w) →
      workforceOf rs = some w) := by
  have hwf : ∀ (rs : ResourceSpans) (e : Event),
      e ∈ eventsUnderResource parse rs → e.workforce_name = workforceOf rs := by
    intro rs e he
    unfold eventsUnderResource at he
    simp only [List.mem_flatMap, List.mem_filterMap, Option.map_eq_some'] at he
    obtain ⟨scope, _, span, _, e₀, _, rfl⟩ := he
    rfl
  refine ⟨?_, ?_, ?_, ?_⟩
  · intro e he
    unfold preprocessSpans at he
    rcases List.mem_flatMap.mp he with ⟨rs, hrs, hee⟩
    exact ⟨rs, hrs, hee, hwf rs e hee⟩
  · intro rs hrs e he
    refine ⟨?_, hwf rs e he⟩
    unfold preprocessSpans
    exact List.mem_flatMap.mpr ⟨rs, hrs, he⟩
  · intro rs h
    unfold workforceOf
    rw [h]
  · intro rs w h
    unfold workforceOf
    rw [h]

/-- C8 witness: a request with one resource carrying
`agentic_layer.workforce = "test-workforce"` and one `before_agent`
span — the single produced event carries that workforce name. -/
theorem preprocessSpans_workforce_witness :
    ((preprocessSpans (fun _ => none)
        { resource_spans := [
            { resource_attributes := [("agentic_layer.workforce", .str "test-workforce")],
              scope_spans := [{ spans := [
                { name := "before_agent",
                  attributes := [("agent_communication_dashboard", .bool true),
                                 ("conversation_id", .str "c1"), ("agent_name", .str "alice")],
                  start_time_unix_nano := 1700000000000000000 }] }] }] }).map
      (fun e => e.workforce_name)) = [some "test-workforce"] := by
  have h := (preprocessSpans_workforce (fun _ => none)
    { resource_spans := [
        { resource_attributes := [("agentic_layer.workforce", .str "test-workforce")],
          scope_spans := [{ spans := [
            { name := "before_agent",
              attributes := [("agent_communication_dashboard", .bool true),
                             ("conversation_id", .str "c1"), ("agent_name", .str "alice")],
              start_time_unix_nano := 1700000000000000000 }] }] }] }).2.2.2
    { resource_attributes := [("agentic_layer.workforce", .str "test-workforce")],
      scope_spans := [{ spans := [
        { name := "before_agent",
          attributes := [("agent_communication_dashboard", .bool true),
                         ("conversation_id", .str "c1"), ("agent_name", .str "alice")],
          start_time_unix_nano := 1700000000000000000 }] }] }
    "test-workforce" rfl
  rw [show (preprocessSpans (fun _ => none)
      { resource_spans := [
          { resource_attributes := [("agentic_layer.workforce", .str "test-workforce")],
            scope_spans := [{ spans := [
              { name := "before_agent",
                attributes := [("agent_communication_dashboard", .bool true),
                               ("conversation_id", .str "c1"), ("agent_name", .str "alice")],
                start_time_unix_nano := 1700000000000000000 }] }] }] }).map
      (fun e => e.workforce_name) = [workforceOf
        { resource_attributes := [("agentic_layer.workforce", .str "test-workforce")],
          scope_spans := [{ spans := [
            { name := "before_agent",
              attributes := [("agent_communication_dashboard", .bool true),
                             ("conversation_id", .str "c1"), ("agent_name", .str "alice")],
              start_time_unix_nano := 1700000000000000000 }] }] }] from rfl, h]

/-! ## C9 — timestamp conversion: range and ISO shape -/

/-- The characters emitted by the zero-padded fields are decimal
digits. -/
theorem digitCh_isDigit (k : Nat) : (digitCh k).isDigit = true := by
  unfold digitCh
  have h : k % 10 < 10 := Nat.mod_lt k (by norm_num)
  generalize k % 10 = m at h ⊢
  interval_cases m <;> decide

/-- Every string the formatter emits matches the spec's P5 shape
`\d\x7b4\x7d-\d\x7b2\x7d-\d\x7b2\x7dT\d\x7b2\x7d:\d\x7b2\x7d:\d\x7b2\x7d(\.\d+)?Z`. -/
theorem isoShape_formatIsoZ (secs : Int) (us : Nat) :
    isoShape (formatIsoZ secs us) = true := by
  unfold formatIsoZ isoShape
  by_cases h : us = 0
  · simp [h, pad4, pad2, pad6, digitCh_isDigit, isoTail]
  · simp [h, pad4, pad2, pad6, digitCh_isDigit, isoTail, isoFracTail]

/-- C9 (amended).  `_convert_timestamp_to_iso` returns absent exactly
when the instant falls outside the platform's `datetime` range (years
1–9999, i.e. seconds outside
`[-62135596800, 253402300799]`); every returned string matches
`\d\x7b4\x7d-\d\x7b2\x7d-\d\x7b2\x7dT\d\x7b2\x7d:\d\x7b2\x7d:\d\x7b2\x7d(\.\d+)?Z`;
and a span whose timestamp converts to absent is dropped by
`_process_single_span`.  Negative timestamps within the range are NOT
rejected (see `convertTimestamp_negative_counterexample`): with
`tz=timezone.utc`, `datetime.fromtimestamp` converts pre-epoch
instants normally. -/
theorem convertTimestamp_range_and_shape :
    (∀ n : Int, convertTimestampToIso n = none ↔
        (n < -62135596800 * 1000000000 ∨ (253402300799 + 1) * 1000000000 ≤ n)) ∧
    (∀ (n : Int) (s : String), convertTimestampToIso n = some s → isoShape s = true) ∧
    (∀ (parse : String → Option JVal) (span : Span),
      convertTimestampToIso span.start_time_unix_nano = none →
      processSingleSpan parse span = none) := by
  refine ⟨?_, ?_, ?_⟩
  · intro n
    unfold convertTimestampToIso
    dsimp only
    rw [Int.fdiv_eq_ediv n (by norm_num)]
    split_ifs with h
    · simp only [minTimestampSec, maxTimestampSec] at h
      constructor
      · intro _
        omega
      · intro _
        rfl
    · simp only [minTimestampSec, maxTimestampSec] at h
      constructor
      · intro hcon
        cases hcon
      · intro hp
        exfalso
        omega
  · intro n s h
    unfold convertTimestampToIso at h
    dsimp only at h
    split_ifs at h
    injection h with h
    rw [← h]
    exact isoShape_formatIsoZ _ _
  · intro parse span h
    unfold processSingleSpan
    dsimp only
    split_ifs
    · rfl
    · rfl
    · cases hdet : determineEventType span.name
      · rfl
      · rw [h]

/-- C9 witness: the theorem applied at the S1 timestamp
`1_700_000_000_000_000_000` (in range, shaped output) and at an
out-of-range value. -/
theorem convertTimestamp_range_and_shape_witness :
    isoShape "2023-11-14T22:13:20Z" = true ∧
    convertTimestampToIso 1700000000000000000 = some "2023-11-14T22:13:20Z" ∧
    convertTimestampToIso 253402301000000000000 = none := by
  refine ⟨?_, by rfl, ?_⟩
  · exact convertTimestamp_range_and_shape.2.1 1700000000000000000 _ (by rfl)
  · exact (convertTimestamp_range_and_shape.1 253402301000000000000).mpr (by norm_num)

/-- C9 counterexample to the claim as stated: the negative timestamp
`-1_000_000_000` (one second before the epoch) is converted to
`1969-12-31T23:59:59Z`, not rejected. -/
theorem convertTimestamp_negative_counterexample :
    (-1000000000 : Int) < 0 ∧
    convertTimestampToIso (-1000000000) = some "1969-12-31T23:59:59Z" :=
  ⟨by norm_num, by rfl⟩

end ObsDash
